import Mathlib

/-!
Verification of the API load tester (`tester.py`, class `APILoadTester`).

The Python program is embedded shallowly:
* machine floats (`time.time()` differences, latencies in ms) are modelled as
  exact rationals `ℚ`;
* Python `int` values that are always non-negative (request ids, status codes,
  counts, rates) are modelled as `ℕ`;
* the network is abstracted as a `NetEvent` (a completed HTTP response carrying
  its status, or a raised exception described by the flags the `except` clauses
  of `make_request` test);
* fallible/IO-performing code is turned into total functions over those inputs.
-/

namespace LoadTester

/-- One recorded result, the dictionary appended in `print_result`
(`{'id', 'status_code', 'response_time', 'error', 'timestamp'}`). -/
structure Outcome where
  requestId : Nat
  statusCode : Nat
  responseTime : ℚ
  error : String
  timestamp : ℚ
deriving Repr, DecidableEq

/-- A Python exception reaching `make_request`'s `except` ladder, described by
the tests the ladder performs: is it an `asyncio.TimeoutError`, an
`aiohttp.ClientConnectionError`, an `aiohttp.ClientError`, and what `str(e)`
yields.  (Subclassing, e.g. `ClientConnectionError ⊆ ClientError`, only matters
through which flags are set; the ladder checks them in source order.) -/
structure PyExc where
  isTimeout : Bool
  isConnectionError : Bool
  isClientError : Bool
  msg : String
deriving Repr, DecidableEq

/-- What the network interaction inside `make_request`'s `try` block produced:
either a completed HTTP response with its status, or a raised exception. -/
inductive NetEvent where
  | response (status : Nat)
  | raised (e : PyExc)
deriving Repr, DecidableEq

/-- The `except` ladder of `make_request` (lines 153-164): clauses are tried in
source order, so a timeout wins over a connection error, which wins over a
generic client error, which wins over the catch-all. -/
def classifyError (e : PyExc) : String :=
  if e.isTimeout then "Timeout"
  else if e.isConnectionError then "Connection Error"
  else if e.isClientError then "Client Error: " ++ e.msg
  else "Unexpected Error: " ++ e.msg

/-- The tuple mirror of `make_request`'s return value
`(request_id, status_code, response_time, error_message)`. -/
structure RequestResult where
  requestId : Nat
  statusCode : Nat
  responseTime : ℚ
  error : String
deriving Repr, DecidableEq

/-- `make_request` (lines 123-164): on a completed response it returns the
server status and an empty error string; on any exception it returns the
sentinel status `0` and the classification of the exception.  `elapsedMs`
stands for `(time.time() - start_time) * 1000`, measured at the terminal
state. -/
def make_request (request_id : Nat) (ev : NetEvent) (elapsedMs : ℚ) : RequestResult :=
  match ev with
  | .response s => ⟨request_id, s, elapsedMs, ""⟩
  | .raised e => ⟨request_id, 0, elapsedMs, classifyError e⟩

/-- `print_result` (lines 166-176): under the lock, append one result
dictionary (stamped with `time.time()`) to `self.results`. -/
def print_result (results : List Outcome) (r : RequestResult) (now : ℚ) : List Outcome :=
  results ++ [⟨r.requestId, r.statusCode, r.responseTime, r.error, now⟩]

/-- Header construction of `make_request` (lines 131-134): a `Content-Type:
application/json` entry is always present; a `User-Agent` entry is added only
when `use_random_user_agent` is set (`ua` stands for the randomly chosen pool
element). -/
def requestHeaders (use_random_user_agent : Bool) (ua : String) : List (String × String) :=
  ("Content-Type", "application/json") ::
    (if use_random_user_agent then [("User-Agent", ua)] else [])

/-- The `json=` argument of `session.request` (line 145):
`self.request_body if self.method in ['POST', 'PUT'] else None`. -/
def requestBodySent (method : String) (request_body : Option String) : Option String :=
  if method = "POST" ∨ method = "PUT" then request_body else none

/-- Batch-size computation of `run_load_test` (lines 296-303). -/
def batch_size (requests_per_second : Nat) : Nat :=
  if 100 ≤ requests_per_second then min requests_per_second 1000
  else requests_per_second

/-- The batch loop of `run_load_test` (lines 324-326): for
`batch_start in range(start, total, bs)` build
`list(range(batch_start + 1, min(batch_start + bs, total) + 1))`.
Python's `range` with step `0` raises `ValueError`; the `0 < bs` guard keeps
the Lean function total by returning no batches in that (unreachable,
`requests_per_second > 0`) case. -/
def batchesFrom (total bs start : Nat) : List (List Nat) :=
  if _h : 0 < bs ∧ start < total then
    List.range' (start + 1) (min (start + bs) total - start) ::
      batchesFrom total bs (start + bs)
  else []
termination_by total - start
decreasing_by omega

/-- All batches of one run, starting at `batch_start = 0`. -/
def batches (total bs : Nat) : List (List Nat) :=
  batchesFrom total bs 0

/-- Semaphore construction (line 329):
`asyncio.Semaphore(min(len(batch_requests), 1000))`. -/
def semaphoreCapacity (batchLen : Nat) : Nat :=
  min batchLen 1000

/-- The capacity of the gate constructed for each successive batch of a run
with `total` requests at `requests_per_second`. -/
def gateCapacities (total requests_per_second : Nat) : List Nat :=
  (batches total (batch_size requests_per_second)).map
    (fun b => semaphoreCapacity b.length)

/-- The outcome collection of a completed run: one outcome per issued request
id (each task records exactly once via `print_result`; `exec` abstracts the
per-id execution, and recording order is irrelevant to the length). -/
def runOutcomes (total bs : Nat) (exec : Nat → Outcome) : List Outcome :=
  ((batches total bs).flatten).map exec

/-- Python `max(xs)` on a non-empty list ( `0` is a junk value for `[]`,
where Python would raise). -/
def pyMax (xs : List ℚ) : ℚ :=
  match xs with
  | [] => 0
  | x :: t => t.foldl max x

/-- Python `min(xs)` on a non-empty list (`0` is a junk value for `[]`). -/
def pyMin (xs : List ℚ) : ℚ :=
  match xs with
  | [] => 0
  | x :: t => t.foldl min x

/-- `statistics.mean`. -/
def pyMean (xs : List ℚ) : ℚ :=
  xs.sum / xs.length

/-- `statistics.median`: middle element of the sorted data for odd length,
mean of the two middle elements for even length. -/
def pyMedian (xs : List ℚ) : ℚ :=
  let s := xs.insertionSort (· ≤ ·)
  let n := xs.length
  if n % 2 = 1 then s.getD (n / 2) 0
  else (s.getD (n / 2 - 1) 0 + s.getD (n / 2) 0) / 2

/-- `response_times` (line 193): latencies of outcomes with `status_code > 0`. -/
def successTimes (rs : List Outcome) : List ℚ :=
  (rs.filter (fun r => decide (0 < r.statusCode))).map (fun r => r.responseTime)

/-- `result['error'].split(':')[0]` (line 263): the prefix up to the first
colon (the whole string when no colon occurs). -/
def errType (s : String) : String :=
  s.takeWhile (fun c => c != ':')

/-- One `d[k] = d.get(k, 0) + 1` step on an insertion-ordered dictionary
modelled as an association list (new keys go to the back, as in Python). -/
def bump {α : Type} [DecidableEq α] (m : List (α × Nat)) (k : α) : List (α × Nat) :=
  match m with
  | [] => [(k, 1)]
  | (k', v) :: t => if k' = k then (k', v + 1) :: t else (k', v) :: bump t k

/-- Status-code distribution (lines 247-251): counts per code over outcomes
with `status_code > 0`. -/
def statusHistogram (rs : List Outcome) : List (Nat × Nat) :=
  rs.foldl (fun m r => if 0 < r.statusCode then bump m r.statusCode else m) []

/-- Error distribution (lines 260-264): counts per error type over outcomes
with a non-empty error string. -/
def errorHistogram (rs : List Outcome) : List (String × Nat) :=
  rs.foldl (fun m r => if r.error ≠ "" then bump m (errType r.error) else m) []

/-- `test_duration` (line 199): `max(timestamps) - min(timestamps)`. -/
def test_duration (rs : List Outcome) : ℚ :=
  pyMax (rs.map (fun r => r.timestamp)) - pyMin (rs.map (fun r => r.timestamp))

/-- `actual_rps` (line 200): `total_requests / test_duration` where
`total_requests = len(self.results)`, and `0` when the duration is not
positive. -/
def actual_rps (rs : List Outcome) : ℚ :=
  if 0 < test_duration rs then (rs.length : ℚ) / test_duration rs else 0

/-- Throughput efficiency (line 243):
`(actual_rps / self.requests_per_second) * 100 if self.requests_per_second > 0 else 0`. -/
def throughput_efficiency (requests_per_second : Nat) (rps_actual : ℚ) : ℚ :=
  if 0 < requests_per_second then rps_actual / (requests_per_second : ℚ) * 100 else 0

/-- Percentile index (lines 230-232): `idx = int((p / 100) * n) - 1`, then
clamped up to `0`.  `int` truncates toward zero and `(p/100) * n ≥ 0`, so in
exact arithmetic `idx = ⌊p·n/100⌋ - 1`; the Nat subtraction realises the
`if idx < 0: idx = 0` clamp.  (The float product is modelled exactly; the
inputs exercised below are dyadic, where Python's float arithmetic is exact.) -/
def pctIdx (p n : Nat) : Nat :=
  p * n / 100 - 1

/-- `sorted_times[idx]` (line 233): the reported percentile value. -/
def percentileValue (p : Nat) (sorted_times : List ℚ) : ℚ :=
  sorted_times.getD (pctIdx p sorted_times.length) 0

/-- Modelled from the spec's words, for comparison with `pctIdx`:
nearest-rank index `max(0, ceil(p/100 * n) - 1)` (Nat ceiling division and
truncated subtraction realise the `ceil` and the clamp). -/
def specPctIdx (p n : Nat) : Nat :=
  (p * n + 99) / 100 - 1

/-- The latency block of the summary (lines 216-233), present only when at
least one request succeeded. -/
structure LatencyStats where
  count : Nat
  average : ℚ
  median : ℚ
  minVal : ℚ
  maxVal : ℚ
  stdDev : ℚ
  percentiles : List (Nat × ℚ)
deriving Repr

/-- The figures `print_summary` derives when the collection is non-empty. -/
structure ReportData where
  total : Nat
  successful : Nat
  failed : Nat
  successRate : ℚ
  duration : ℚ
  rate : ℚ
  stats : Option LatencyStats
  efficiency : Option ℚ
  statusHist : List (Nat × Nat)
  errorHist : List (String × Nat)
  fast : Nat
  medium : Nat
  slow : Nat
deriving Repr

/-- The output of `print_summary`: the early `"No results to display."` return
(line 184-186), or the derived figures. -/
inductive Report where
  | noData
  | data (d : ReportData)
deriving Repr

/-- `print_summary` (lines 178-283) as a function of the collection.  `stdev`
abstracts `statistics.stdev` (an irrational square root in general); the code
only calls it behind the `len(response_times) > 1` guard, so every statement
proved below holds for the real one. -/
def print_summary (stdev : List ℚ → ℚ) (requests_per_second : Nat)
    (results : List Outcome) : Report :=
  if results.isEmpty then .noData
  else
    let total := results.length
    let successful := (results.filter (fun r => decide (0 < r.statusCode))).length
    let response_times := successTimes results
    let all_times : List ℚ := results.map (fun r => r.responseTime)
    let dur := test_duration results
    let rps := actual_rps results
    let stats : Option LatencyStats :=
      if response_times.isEmpty then none
      else
        let sorted_times := response_times.insertionSort (· ≤ ·)
        some { count := response_times.length
               average := pyMean response_times
               median := pyMedian response_times
               minVal := pyMin response_times
               maxVal := pyMax response_times
               stdDev := if 1 < response_times.length then stdev response_times else 0
               percentiles :=
                 [50, 75, 90, 95, 99].map (fun p => (p, percentileValue p sorted_times)) }
    .data
      { total := total
        successful := successful
        failed := total - successful
        successRate := (successful : ℚ) / (total : ℚ) * 100
        duration := dur
        rate := rps
        stats := stats
        efficiency :=
          if 0 < dur then some (throughput_efficiency requests_per_second rps) else none
        statusHist := statusHistogram results
        errorHist := errorHistogram results
        fast := (all_times.filter (fun t => decide (t < 100))).length
        medium := (all_times.filter (fun t => decide (100 ≤ t ∧ t < 500))).length
        slow := (all_times.filter (fun t => decide (500 ≤ t))).length }

/-- The efficiency figure a report carries, if any. -/
def Report.efficiencyOf : Report → Option ℚ
  | .noData => none
  | .data d => d.efficiency

/-- State-passing rendition of `print_summary`: the body only reads
`self.results` (via `len`, list comprehensions, `max`/`min`,
`statistics.*`, and `sorted`, which returns a fresh list), so every step
leaves the collection component unchanged. -/
def print_summaryS (stdev : List ℚ → ℚ) (requests_per_second : Nat)
    (results : List Outcome) : Report × List Outcome :=
  (print_summary stdev requests_per_second results, results)

/-! ### Helper lemmas -/

theorem string_append_ne_empty (a b : String) (ha : a.length ≠ 0) : a ++ b ≠ "" := by
  intro h
  have hl := congrArg String.length h
  rw [String.length_append] at hl
  have h0 : ("" : String).length = 0 := rfl
  omega

theorem classifyError_ne_empty (e : PyExc) : classifyError e ≠ "" := by
  unfold classifyError
  split_ifs
  · decide
  · decide
  · exact string_append_ne_empty _ _ (by decide)
  · exact string_append_ne_empty _ _ (by decide)

theorem le_foldl_max : ∀ (t : List ℚ) (x : ℚ), x ≤ t.foldl max x := by
  intro t
  induction t with
  | nil => intro x; exact le_refl x
  | cons y ys ih =>
    intro x
    simp only [List.foldl_cons]
    exact le_trans (le_max_left x y) (ih (max x y))

theorem foldl_min_le : ∀ (t : List ℚ) (x : ℚ), t.foldl min x ≤ x := by
  intro t
  induction t with
  | nil => intro x; exact le_refl x
  | cons y ys ih =>
    intro x
    simp only [List.foldl_cons]
    exact le_trans (ih (min x y)) (min_le_left x y)

theorem pyMin_le_pyMax (xs : List ℚ) (h : xs ≠ []) : pyMin xs ≤ pyMax xs := by
  cases xs with
  | nil => exact absurd rfl h
  | cons x t =>
    simp only [pyMin, pyMax]
    exact le_trans (foldl_min_le t x) (le_foldl_max t x)

theorem test_duration_nonneg (rs : List Outcome) (h : rs ≠ []) : 0 ≤ test_duration rs := by
  unfold test_duration
  have hm : rs.map (fun r => r.timestamp) ≠ [] := by
    cases rs with
    | nil => exact absurd rfl h
    | cons a t => simp
  linarith [pyMin_le_pyMax _ hm]

theorem foldl_max_sorted : ∀ (xs : List ℚ) (x : ℚ), (x :: xs).Sorted (· ≤ ·) →
    xs.foldl max x = (x :: xs).getLast (List.cons_ne_nil x xs) := by
  intro xs
  induction xs with
  | nil => intro x _; rfl
  | cons y ys ih =>
    intro x hs
    rw [List.sorted_cons] at hs
    have hxy : x ≤ y := hs.1 y (List.mem_cons_self y ys)
    simp only [List.foldl_cons, max_eq_right hxy]
    rw [ih y hs.2]
    exact (List.getLast_cons _).symm

theorem pyMax_sorted (xs : List ℚ) (h : xs ≠ []) (hs : xs.Sorted (· ≤ ·)) :
    pyMax xs = xs.getLast h := by
  cases xs with
  | nil => exact absurd rfl h
  | cons x t => exact foldl_max_sorted t x hs

theorem getD_last (xs : List ℚ) (h : xs ≠ []) : xs.getD (xs.length - 1) 0 = xs.getLast h := by
  have hpos : 0 < xs.length := List.length_pos.mpr h
  have hlt : xs.length - 1 < xs.length := by omega
  rw [List.getLast_eq_getElem, List.getD_eq_getElem?_getD, List.getElem?_eq_getElem hlt]
  rfl

theorem pctIdx_100 (n : Nat) : pctIdx 100 n = n - 1 := by
  unfold pctIdx
  have h : 100 * n / 100 = n := by omega
  rw [h]

theorem pctIdx_lt (p n : Nat) (hp : p ≤ 100) (hn : 0 < n) : pctIdx p n < n := by
  unfold pctIdx
  have h1 : p * n ≤ 100 * n := Nat.mul_le_mul_right n hp
  have h2 : p * n / 100 ≤ 100 * n / 100 := Nat.div_le_div_right h1
  have h3 : 100 * n / 100 = n := by omega
  omega

theorem floor_idx_toNat (k : Nat) :
    k / 100 - 1 = (max 0 (((k : Nat) : Int) / 100 - 1)).toNat := by
  have hdiv : ((k : Nat) : Int) / (100 : Int) = ((k / 100 : Nat) : Int) :=
    (Int.ofNat_div k 100).symm
  rw [hdiv]
  omega

theorem batch_size_pos (requests_per_second : Nat) (h : 0 < requests_per_second) :
    0 < batch_size requests_per_second := by
  unfold batch_size
  split_ifs with h100
  · omega
  · exact h

theorem batchesFrom_flatten (total bs : Nat) (hbs : 0 < bs) (start : Nat) :
    (batchesFrom total bs start).flatten = List.range' (start + 1) (total - start) := by
  have H : ∀ n start, total - start ≤ n →
      (batchesFrom total bs start).flatten = List.range' (start + 1) (total - start) := by
    intro n
    induction n with
    | zero =>
      intro start h
      rw [batchesFrom]
      have hst : ¬(0 < bs ∧ start < total) := by omega
      rw [dif_neg hst]
      have h0 : total - start = 0 := by omega
      simp [h0]
    | succ n ih =>
      intro start h
      rw [batchesFrom]
      by_cases hst : 0 < bs ∧ start < total
      · rw [dif_pos hst]
        have hrec := ih (start + bs) (by omega)
        simp only [List.flatten_cons, hrec]
        rcases Nat.le_total (start + bs) total with hle | hle
        · have hmin : min (start + bs) total = start + bs := by omega
          rw [hmin]
          have h1 : start + bs - start = bs := by omega
          have h2 : start + bs + 1 = start + 1 + bs := by omega
          rw [h1, h2, List.range'_append_1]
          congr 1
          omega
        · have h0 : total - (start + bs) = 0 := by omega
          have hmin : min (start + bs) total = total := by omega
          rw [h0, hmin]
          simp
      · rw [dif_neg hst]
        have h0 : total - start = 0 := by omega
        simp [h0]
  exact H (total - start) start le_rfl

theorem batchesFrom_mem (total bs : Nat) (start : Nat) (b : List Nat)
    (hb : b ∈ batchesFrom total bs start) :
    ∃ s, start ≤ s ∧ s < total ∧ b = List.range' (s + 1) (min (s + bs) total - s) := by
  have H : ∀ n start, total - start ≤ n → ∀ b, b ∈ batchesFrom total bs start →
      ∃ s, start ≤ s ∧ s < total ∧ b = List.range' (s + 1) (min (s + bs) total - s) := by
    intro n
    induction n with
    | zero =>
      intro start h b hb
      rw [batchesFrom] at hb
      have hst : ¬(0 < bs ∧ start < total) := by omega
      rw [dif_neg hst] at hb
      exact absurd hb (List.not_mem_nil b)
    | succ n ih =>
      intro start h b hb
      rw [batchesFrom] at hb
      by_cases hst : 0 < bs ∧ start < total
      · rw [dif_pos hst] at hb
        rcases List.mem_cons.mp hb with hb | hb
        · exact ⟨start, le_refl start, hst.2, hb⟩
        · obtain ⟨s, hs1, hs2, hs3⟩ := ih (start + bs) (by omega) b hb
          exact ⟨s, by omega, hs2, hs3⟩
      · rw [dif_neg hst] at hb
        exact absurd hb (List.not_mem_nil b)
  exact H (total - start) start le_rfl b hb

theorem batch_length_le (total bs : Nat) (hbs : 0 < bs) (b : List Nat)
    (hb : b ∈ batches total bs) : 0 < b.length ∧ b.length ≤ bs := by
  obtain ⟨s, _, hst, rfl⟩ := batchesFrom_mem total bs 0 b hb
  rw [List.length_range']
  omega

theorem print_summary_ne_nil (stdev : List ℚ → ℚ) (rps : Nat) (rs : List Outcome)
    (h : rs ≠ []) :
    print_summary stdev rps rs = Report.data
      { total := rs.length
        successful := (rs.filter fun r => decide (0 < r.statusCode)).length
        failed := rs.length - (rs.filter fun r => decide (0 < r.statusCode)).length
        successRate :=
          ((rs.filter fun r => decide (0 < r.statusCode)).length : ℚ) /
            (rs.length : ℚ) * 100
        duration := test_duration rs
        rate := actual_rps rs
        stats :=
          if (successTimes rs).isEmpty then none
          else some
            { count := (successTimes rs).length
              average := pyMean (successTimes rs)
              median := pyMedian (successTimes rs)
              minVal := pyMin (successTimes rs)
              maxVal := pyMax (successTimes rs)
              stdDev :=
                if 1 < (successTimes rs).length then stdev (successTimes rs) else 0
              percentiles := [50, 75, 90, 95, 99].map fun p =>
                (p, percentileValue p ((successTimes rs).insertionSort (· ≤ ·))) }
        efficiency :=
          if 0 < test_duration rs then
            some (throughput_efficiency rps (actual_rps rs))
          else none
        statusHist := statusHistogram rs
        errorHist := errorHistogram rs
        fast := ((rs.map fun r => r.responseTime).filter fun t => decide (t < 100)).length
        medium :=
          ((rs.map fun r => r.responseTime).filter fun t =>
            decide (100 ≤ t ∧ t < 500)).length
        slow :=
          ((rs.map fun r => r.responseTime).filter fun t => decide (500 ≤ t)).length } := by
  cases rs with
  | nil => exact absurd rfl h
  | cons a t =>
    unfold print_summary
    simp only [List.isEmpty_cons, Bool.false_eq_true, if_false]

/-! ### Claim theorems -/

/-- C2: for every configuration with `totalRequests > 0` and `batchSize > 0`,
the batches partition the id range `[1, totalRequests]` into consecutive runs
(each non-empty, of length at most `batchSize`): flattening them yields exactly
`1, …, totalRequests`, every id in range occurs exactly once, and the outcome
collection of a completed run has exactly `totalRequests` elements. -/
theorem C2_partition (total bs : Nat) (exec : Nat → Outcome)
    (htotal : 0 < total) (hbs : 0 < bs) :
    (batches total bs).flatten = List.range' 1 total ∧
    (runOutcomes total bs exec).length = total ∧
    (∀ i, 1 ≤ i → i ≤ total → ((batches total bs).flatten).count i = 1) ∧
    ∀ b ∈ batches total bs, 0 < b.length ∧ b.length ≤ bs := by
  have hflat : (batches total bs).flatten = List.range' 1 total := by
    unfold batches
    rw [batchesFrom_flatten total bs hbs 0]
    simp
  refine ⟨hflat, ?_, ?_, ?_⟩
  · unfold runOutcomes
    rw [List.length_map, hflat, List.length_range']
  · intro i h1 h2
    rw [hflat]
    exact List.count_eq_one_of_mem (List.nodup_range' 1 total)
      (by rw [List.mem_range'_1]; omega)
  · exact fun b hb => batch_length_le total bs hbs b hb

/-- Witness for C2 at `total = 5`, `bs = 2`. -/
theorem C2_partition_witness :
    (batches 5 2).flatten = List.range' 1 5 ∧
    (runOutcomes 5 2 (fun i => ⟨i, 200, 1, "", 0⟩)).length = 5 ∧
    (∀ i, 1 ≤ i → i ≤ 5 → ((batches 5 2).flatten).count i = 1) ∧
    ∀ b ∈ batches 5 2, 0 < b.length ∧ b.length ≤ 2 :=
  C2_partition 5 2 (fun i => ⟨i, 200, 1, "", 0⟩) (by omega) (by omega)

/-- C3: an outcome carries the sentinel status `0` exactly when it carries a
non-empty error detail; a completed HTTP response (whose status, as served, is
positive — 4xx/5xx included) yields that status and no error. -/
theorem C3_status_iff_error (request_id : Nat) (ev : NetEvent) (elapsedMs : ℚ)
    (hresp : ∀ s, ev = NetEvent.response s → 0 < s) :
    ((make_request request_id ev elapsedMs).statusCode = 0 ↔
      (make_request request_id ev elapsedMs).error ≠ "") ∧
    ∀ s, ev = NetEvent.response s →
      (make_request request_id ev elapsedMs).statusCode = s ∧
      (make_request request_id ev elapsedMs).error = "" := by
  cases ev with
  | response s =>
    have hs := hresp s rfl
    refine ⟨?_, ?_⟩
    · have hns : ¬(s = 0) := by omega
      simp [make_request, hns]
    · intro s' hs'
      cases hs'
      exact ⟨rfl, rfl⟩
  | raised e =>
    refine ⟨?_, ?_⟩
    · constructor
      · intro _
        exact classifyError_ne_empty e
      · intro _
        rfl
    · intro s hs'
      cases hs'

/-- Witness for C3 at a completed `200` response. -/
theorem C3_status_iff_error_witness :
    (((make_request 1 (NetEvent.response 200) 5).statusCode = 0 ↔
      (make_request 1 (NetEvent.response 200) 5).error ≠ "") ∧
    ∀ s, NetEvent.response 200 = NetEvent.response s →
      (make_request 1 (NetEvent.response 200) 5).statusCode = s ∧
      (make_request 1 (NetEvent.response 200) 5).error = "") :=
  C3_status_iff_error 1 (NetEvent.response 200) 5 (by intro s hs; cases hs; omega)

/-- C4: every exception reaching the executor's boundary becomes an outcome
with status `0`, classified with the precedence of the `except` ladder:
`Timeout`, then `Connection Error`, then `Client Error` with the
library-reported detail, then `Unexpected Error` with the stringified error. -/
theorem C4_classification (request_id : Nat) (e : PyExc) (elapsedMs : ℚ) :
    (make_request request_id (NetEvent.raised e) elapsedMs).statusCode = 0 ∧
    (e.isTimeout = true →
      (make_request request_id (NetEvent.raised e) elapsedMs).error = "Timeout") ∧
    (e.isTimeout = false → e.isConnectionError = true →
      (make_request request_id (NetEvent.raised e) elapsedMs).error =
        "Connection Error") ∧
    (e.isTimeout = false → e.isConnectionError = false → e.isClientError = true →
      (make_request request_id (NetEvent.raised e) elapsedMs).error =
        "Client Error: " ++ e.msg) ∧
    (e.isTimeout = false → e.isConnectionError = false → e.isClientError = false →
      (make_request request_id (NetEvent.raised e) elapsedMs).error =
        "Unexpected Error: " ++ e.msg) := by
  refine ⟨rfl, ?_, ?_, ?_, ?_⟩
  · intro h1
    simp [make_request, classifyError, h1]
  · intro h1 h2
    simp [make_request, classifyError, h1, h2]
  · intro h1 h2 h3
    simp [make_request, classifyError, h1, h2, h3]
  · intro h1 h2 h3
    simp [make_request, classifyError, h1, h2, h3]

/-- Witness for C4 at a connection-level failure (which, as in aiohttp, is also
a client error — the ladder still reports `Connection Error`). -/
theorem C4_classification_witness :
    (make_request 7 (NetEvent.raised ⟨false, true, true, "refused"⟩) 2).statusCode = 0 ∧
    (make_request 7 (NetEvent.raised ⟨false, true, true, "refused"⟩) 2).error =
      "Connection Error" :=
  ⟨(C4_classification 7 ⟨false, true, true, "refused"⟩ 2).1,
   (C4_classification 7 ⟨false, true, true, "refused"⟩ 2).2.2.1 rfl rfl⟩

/-- C5: for a positive target rate, the batch size is `min(rate, 1000)` when
the rate is at least `100` and the rate itself otherwise, and the gate built
for each batch has capacity `min(batch length, 1000)` (hence never above
`1000` nor above the batch size). -/
theorem C5_batch_and_gate (requests_per_second total : Nat)
    (h : 0 < requests_per_second) :
    (100 ≤ requests_per_second →
      batch_size requests_per_second = min requests_per_second 1000) ∧
    (requests_per_second < 100 →
      batch_size requests_per_second = requests_per_second) ∧
    gateCapacities total requests_per_second =
      (batches total (batch_size requests_per_second)).map
        (fun b => min b.length 1000) ∧
    ∀ c ∈ gateCapacities total requests_per_second,
      c ≤ 1000 ∧ c ≤ batch_size requests_per_second := by
  refine ⟨?_, ?_, rfl, ?_⟩
  · intro h100
    unfold batch_size
    rw [if_pos h100]
  · intro h100
    unfold batch_size
    rw [if_neg (by omega)]
  · intro c hc
    unfold gateCapacities at hc
    rw [List.mem_map] at hc
    obtain ⟨b, hb, rfl⟩ := hc
    have hlen := batch_length_le total (batch_size requests_per_second)
      (batch_size_pos requests_per_second h) b hb
    unfold semaphoreCapacity
    omega

/-- Witness for C5 at `requests_per_second = 250`, `total = 5`. -/
theorem C5_batch_and_gate_witness :
    (100 ≤ 250 → batch_size 250 = min 250 1000) ∧
    (250 < 100 → batch_size 250 = 250) ∧
    gateCapacities 5 250 =
      (batches 5 (batch_size 250)).map (fun b => min b.length 1000) ∧
    ∀ c ∈ gateCapacities 5 250, c ≤ 1000 ∧ c ≤ batch_size 250 :=
  C5_batch_and_gate 250 5 (by omega)

/-- C9: producing the summary leaves the outcome collection unchanged — in the
state-passing embedding the collection component is returned as received, and
the report produced is a function of that collection alone. -/
theorem C9_report_pure (stdev : List ℚ → ℚ) (requests_per_second : Nat)
    (results : List Outcome) :
    (print_summaryS stdev requests_per_second results).2 = results ∧
    (print_summaryS stdev requests_per_second results).1 =
      print_summary stdev requests_per_second results :=
  ⟨rfl, rfl⟩

/-- C10: every request carries the `Content-Type: application/json` header
regardless of method, and the configured body is transmitted exactly for
`POST` and `PUT` — for `GET` and `DELETE` no body is sent even when one is
configured. -/
theorem C10_headers_body (method : String) (request_body : Option String)
    (use_random_user_agent : Bool) (ua : String) :
    ("Content-Type", "application/json") ∈
      requestHeaders use_random_user_agent ua ∧
    ((method = "GET" ∨ method = "DELETE") →
      requestBodySent method request_body = none) ∧
    ((method = "POST" ∨ method = "PUT") →
      requestBodySent method request_body = request_body) := by
  refine ⟨List.mem_cons_self _ _, ?_, ?_⟩
  · intro h
    unfold requestBodySent
    rcases h with h | h <;> subst h <;> rw [if_neg (by decide)]
  · intro h
    unfold requestBodySent
    rw [if_pos h]

/-- Witness for C10 at `GET` with a configured body. -/
theorem C10_headers_body_witness :
    ("Content-Type", "application/json") ∈ requestHeaders true "UA" ∧
    requestBodySent "GET" (some "x") = none :=
  ⟨(C10_headers_body "GET" (some "x") true "UA").1,
   (C10_headers_body "GET" (some "x") true "UA").2.1 (Or.inl rfl)⟩

/-- C1 counterexample: on the sorted sample `[10, 20, 30, 40, 50]` at `p = 50`
(an input on which Python's float arithmetic is exact: `0.5 * 5 = 2.5`), the
code reports `sorted[int(2.5) - 1] = sorted[1] = 20`, while the nearest-rank
index claimed is `ceil(2.5) - 1 = 2`, whose element is `30`. -/
theorem C1_counterexample :
    ¬(percentileValue 50 ([10, 20, 30, 40, 50] : List ℚ) =
      ([10, 20, 30, 40, 50] : List ℚ).getD
        (specPctIdx 50 ([10, 20, 30, 40, 50] : List ℚ).length) 0) := by
  decide

/-- C1 (amended): the reported percentile value is the element at index
`max(0, int(p/100 · n) - 1)` — `int` truncates, so the index uses the floor,
not the ceiling of the nearest-rank method.  The index is always in bounds;
percentile `100` would still select the maximum of the sorted sample, and
`p = 50` on `[10, 20, 30, 40]` still yields `20` (there `p·n/100` is an
integer, so floor and ceiling agree). -/
theorem C1_floor_percentile (p : Nat) (xs : List ℚ)
    (hp : p ∈ [50, 75, 90, 95, 99]) (hxs : xs ≠ []) (hs : xs.Sorted (· ≤ ·)) :
    percentileValue p xs =
      xs.getD ((max 0 (((p * xs.length : Nat) : Int) / 100 - 1)).toNat) 0 ∧
    pctIdx p xs.length < xs.length ∧
    percentileValue 100 xs = pyMax xs ∧
    percentileValue 50 ([10, 20, 30, 40] : List ℚ) = 20 := by
  refine ⟨?_, ?_, ?_, ?_⟩
  · unfold percentileValue pctIdx
    rw [floor_idx_toNat (p * xs.length)]
  · have hp' : p ≤ 100 := by fin_cases hp <;> omega
    exact pctIdx_lt p xs.length hp' (List.length_pos.mpr hxs)
  · unfold percentileValue
    rw [pctIdx_100, getD_last xs hxs, pyMax_sorted xs hxs hs]
  · decide

/-- Witness for C1 at `p = 50` on the sorted sample `[10, 20, 30, 40]`. -/
theorem C1_floor_percentile_witness :
    percentileValue 50 ([10, 20, 30, 40] : List ℚ) =
      ([10, 20, 30, 40] : List ℚ).getD
        ((max 0 (((50 * ([10, 20, 30, 40] : List ℚ).length : Nat) : Int) / 100 -
          1)).toNat) 0 ∧
    pctIdx 50 ([10, 20, 30, 40] : List ℚ).length <
      ([10, 20, 30, 40] : List ℚ).length ∧
    percentileValue 100 ([10, 20, 30, 40] : List ℚ) =
      pyMax ([10, 20, 30, 40] : List ℚ) ∧
    percentileValue 50 ([10, 20, 30, 40] : List ℚ) = 20 :=
  C1_floor_percentile 50 [10, 20, 30, 40] (by decide) (by decide) (by decide)

/-- C6: for a non-empty collection, the reported duration is
`max(timestamp) - min(timestamp)` over all outcomes, and the observed rate is
the number of outcomes divided by that duration, `0` when the duration is
zero. -/
theorem C6_duration_rate (rs : List Outcome) (h : rs ≠ []) :
    test_duration rs =
      pyMax (rs.map fun r => r.timestamp) - pyMin (rs.map fun r => r.timestamp) ∧
    (test_duration rs = 0 → actual_rps rs = 0) ∧
    (test_duration rs ≠ 0 →
      actual_rps rs = (rs.length : ℚ) / test_duration rs) := by
  refine ⟨rfl, ?_, ?_⟩
  · intro h0
    unfold actual_rps
    rw [h0]
    simp
  · intro h0
    have hpos : 0 < test_duration rs :=
      lt_of_le_of_ne (test_duration_nonneg rs h) (Ne.symm h0)
    unfold actual_rps
    rw [if_pos hpos]

/-- Witness for C6 on a two-outcome collection spanning 2 time units. -/
theorem C6_duration_rate_witness :
    test_duration [(⟨1, 200, 5, "", 10⟩ : Outcome), ⟨2, 0, 7, "Timeout", 12⟩] =
      pyMax ([(⟨1, 200, 5, "", 10⟩ : Outcome), ⟨2, 0, 7, "Timeout", 12⟩].map
        fun r => r.timestamp) -
      pyMin ([(⟨1, 200, 5, "", 10⟩ : Outcome), ⟨2, 0, 7, "Timeout", 12⟩].map
        fun r => r.timestamp) ∧
    (test_duration [(⟨1, 200, 5, "", 10⟩ : Outcome), ⟨2, 0, 7, "Timeout", 12⟩] = 0 →
      actual_rps [(⟨1, 200, 5, "", 10⟩ : Outcome), ⟨2, 0, 7, "Timeout", 12⟩] = 0) ∧
    (test_duration [(⟨1, 200, 5, "", 10⟩ : Outcome), ⟨2, 0, 7, "Timeout", 12⟩] ≠ 0 →
      actual_rps [(⟨1, 200, 5, "", 10⟩ : Outcome), ⟨2, 0, 7, "Timeout", 12⟩] =
        (([(⟨1, 200, 5, "", 10⟩ : Outcome), ⟨2, 0, 7, "Timeout", 12⟩].length : ℚ)) /
          test_duration [(⟨1, 200, 5, "", 10⟩ : Outcome), ⟨2, 0, 7, "Timeout", 12⟩]) :=
  C6_duration_rate [⟨1, 200, 5, "", 10⟩, ⟨2, 0, 7, "Timeout", 12⟩]
    (List.cons_ne_nil _ _)

/-- C7: with a positive target rate the reported throughput efficiency is
`observedRate / targetRate * 100`; the report carries exactly that figure
whenever the observed duration is positive, and `targetRate = 100` with
`observedRate = 80` reports `80`. -/
theorem C7_efficiency (requests_per_second : Nat) (observed : ℚ)
    (stdev : List ℚ → ℚ) (rs : List Outcome)
    (htarget : 0 < requests_per_second) (hrs : rs ≠ [])
    (hdur : 0 < test_duration rs) :
    throughput_efficiency requests_per_second observed =
      observed / (requests_per_second : ℚ) * 100 ∧
    (print_summary stdev requests_per_second rs).efficiencyOf =
      some (throughput_efficiency requests_per_second (actual_rps rs)) ∧
    throughput_efficiency 100 80 = 80 := by
  refine ⟨?_, ?_, ?_⟩
  · unfold throughput_efficiency
    rw [if_pos htarget]
  · rw [print_summary_ne_nil stdev requests_per_second rs hrs]
    simp only [Report.efficiencyOf]
    rw [if_pos hdur]
  · norm_num [throughput_efficiency]

/-- Witness for C7 at `targetRate = 100`, `observedRate = 80`, over a
two-outcome collection spanning 2 time units. -/
theorem C7_efficiency_witness :
    throughput_efficiency 100 80 = 80 / (100 : ℚ) * 100 ∧
    (print_summary (fun _ => 0) 100
        [(⟨1, 200, 5, "", 10⟩ : Outcome), ⟨2, 0, 7, "Timeout", 12⟩]).efficiencyOf =
      some (throughput_efficiency 100
        (actual_rps [(⟨1, 200, 5, "", 10⟩ : Outcome), ⟨2, 0, 7, "Timeout", 12⟩])) ∧
    throughput_efficiency 100 80 = 80 :=
  C7_efficiency 100 80 (fun _ => 0)
    [⟨1, 200, 5, "", 10⟩, ⟨2, 0, 7, "Timeout", 12⟩]
    (by omega) (List.cons_ne_nil _ _)
    (by
      have h1 : test_duration
          [(⟨1, 200, 5, "", 10⟩ : Outcome), ⟨2, 0, 7, "Timeout", 12⟩] = 2 := by
        unfold test_duration pyMax pyMin
        simp only [List.map_cons, List.map_nil, List.foldl_cons, List.foldl_nil]
        rw [max_eq_right (by norm_num : (10 : ℚ) ≤ 12),
          min_eq_left (by norm_num : (10 : ℚ) ≤ 12)]
        norm_num
      rw [h1]
      norm_num)

/-- C8: the report is total on degenerate collections — on zero outcomes it is
the explicit no-data result; when every outcome failed it carries no latency
statistics yet still reports the counts and the error histogram; and with
exactly one successful outcome the reported standard deviation is `0`. -/
theorem C8_degenerate (stdev : List ℚ → ℚ) (requests_per_second : Nat)
    (rs rs1 : List Outcome)
    (hrs : rs ≠ []) (hfail : ∀ r ∈ rs, r.statusCode = 0)
    (hone : (successTimes rs1).length = 1) :
    print_summary stdev requests_per_second [] = Report.noData ∧
    (∃ d, print_summary stdev requests_per_second rs = Report.data d ∧
      d.stats = none ∧ d.total = rs.length ∧ d.successful = 0 ∧
      d.failed = rs.length ∧ d.errorHist = errorHistogram rs) ∧
    (∃ d st, print_summary stdev requests_per_second rs1 = Report.data d ∧
      d.stats = some st ∧ st.stdDev = 0) := by
  have hfilter : rs.filter (fun r => decide (0 < r.statusCode)) = [] := by
    rw [List.filter_eq_nil_iff]
    intro a ha
    simp [hfail a ha]
  have hsucc : successTimes rs = [] := by
    unfold successTimes
    rw [hfilter]
    rfl
  refine ⟨rfl, ?_, ?_⟩
  · rw [print_summary_ne_nil stdev requests_per_second rs hrs]
    refine ⟨_, rfl, ?_, rfl, ?_, ?_, rfl⟩
    · simp [hsucc]
    · simp [hfilter]
    · simp [hfilter]
  · have hne1 : rs1 ≠ [] := by
      intro h0
      rw [h0] at hone
      simp [successTimes] at hone
    have hemp : (successTimes rs1).isEmpty = false := by
      cases h' : successTimes rs1 with
      | nil => rw [h'] at hone; simp at hone
      | cons x l => rfl
    rw [print_summary_ne_nil stdev requests_per_second rs1 hne1]
    refine ⟨_,
      ⟨(successTimes rs1).length, pyMean (successTimes rs1), pyMedian (successTimes rs1),
        pyMin (successTimes rs1), pyMax (successTimes rs1),
        if 1 < (successTimes rs1).length then stdev (successTimes rs1) else 0,
        [50, 75, 90, 95, 99].map fun p =>
          (p, percentileValue p ((successTimes rs1).insertionSort (· ≤ ·)))⟩,
      rfl, ?_, ?_⟩
    · simp [hemp]
    · simp [hone]

/-- Witness for C8: one all-failed collection and one single-success
collection. -/
theorem C8_degenerate_witness :
    print_summary (fun _ => 0) 10 [] = Report.noData ∧
    (∃ d, print_summary (fun _ => 0) 10 [(⟨1, 0, 5, "Timeout", 10⟩ : Outcome)] =
        Report.data d ∧
      d.stats = none ∧
      d.total = [(⟨1, 0, 5, "Timeout", 10⟩ : Outcome)].length ∧ d.successful = 0 ∧
      d.failed = [(⟨1, 0, 5, "Timeout", 10⟩ : Outcome)].length ∧
      d.errorHist = errorHistogram [(⟨1, 0, 5, "Timeout", 10⟩ : Outcome)]) ∧
    (∃ d st, print_summary (fun _ => 0) 10 [(⟨1, 200, 5, "", 10⟩ : Outcome)] =
        Report.data d ∧
      d.stats = some st ∧ st.stdDev = 0) :=
  C8_degenerate (fun _ => 0) 10 [⟨1, 0, 5, "Timeout", 10⟩] [⟨1, 200, 5, "", 10⟩]
    (List.cons_ne_nil _ _) (by decide) (by decide)

end LoadTester
